import Mathlib

/-!
Verification development for the homework submission and grading platform.

The Python sources are shallowly embedded: Python `str` values are modelled
as `List Char` (obtained from Lean string literals via `String.data`),
Python string operations (`split`, `strip`, `in`, `startswith`, `int(...)`)
are modelled by the executable functions below, database tables are lists of
rows, and the external AI oracle is modelled by an explicit outcome datatype
covering the cases the code distinguishes (transport/HTTP error, malformed
response envelope, or a returned text).
-/

namespace EduPlatform

/-! ### Python string primitives -/

/-- Whitespace characters removed by Python `str.strip()` (ASCII subset;
the sources only ever strip ASCII whitespace). -/
def isPyWS (c : Char) : Bool :=
  c = ' ' || c = '\t' || c = '\n' || c = '\r' || c = '\x0b' || c = '\x0c'

/-- Python `s.strip()`: drop leading and trailing whitespace. -/
def pyStrip (s : List Char) : List Char :=
  ((s.dropWhile isPyWS).reverse.dropWhile isPyWS).reverse

/-- Python `s.split(sep)` for a one-character separator: split at every
occurrence, keeping empty segments (`''.split(':') = ['']`). -/
def pySplit (sep : Char) : List Char → List (List Char)
  | [] => [[]]
  | c :: rest =>
    if c = sep then
      [] :: pySplit sep rest
    else
      match pySplit sep rest with
      | [] => [[c]]
      | seg :: segs => (c :: seg) :: segs

/-- Python `needle.startswith`-style check on char lists. -/
def pyStarts (p s : List Char) : Bool :=
  match p, s with
  | [], _ => true
  | _ :: _, [] => false
  | a :: ps, b :: ss => a = b && pyStarts ps ss

/-- Python substring containment `needle in hay`. -/
def pyContains (needle : List Char) : List Char → Bool
  | [] => needle.isEmpty
  | c :: rest => pyStarts needle (c :: rest) || pyContains needle rest

/-- Value of an ASCII digit, if any. -/
def digitVal (c : Char) : Option Nat :=
  if '0' ≤ c ∧ c ≤ '9' then some (c.toNat - '0'.toNat) else none

/-- Interpret a nonempty all-digit char list as a natural number. -/
def digitsVal : List Char → Option Nat
  | [] => none
  | [c] => digitVal c
  | c :: rest =>
    match digitVal c, digitsVal rest with
    | some d, some n => some (d * 10 ^ rest.length + n)
    | _, _ => none

/-- Python `int(s)` on a string: surrounding whitespace, an optional sign and
ASCII digits (the grading sources only ever meet this fragment); anything
else raises `ValueError`, modelled as `none`. -/
def pyInt (s : List Char) : Option Int :=
  match pyStrip s with
  | '+' :: rest => (digitsVal rest).map Int.ofNat
  | '-' :: rest => (digitsVal rest).map (fun n => -(n : Int))
  | t => (digitsVal t).map Int.ofNat

/-! ### `ai_grading.py`: the Grading Oracle Client

The external HTTP call is modelled by `OracleOutcome`, the three situations
`get_grading` distinguishes: the request/`raise_for_status`/`response.json()`
raised (all caught by the same `except`), the JSON envelope lacked
`output.text`, or a text was returned. -/

/-- Outcome of one call to the external text-generation endpoint. -/
inductive OracleOutcome where
  | netError (msg : List Char)
  | badEnvelope
  | text (t : String)

/-- Token scanned for when locating the score line (`"评分"`). -/
def scoreTok : List Char := "评分".data

/-- Token scanned for when locating the feedback line (`"评价"`). -/
def feedbackTok : List Char := "评价".data

/-- Message returned when parsing the oracle text raises (`except` branch). -/
def parseFailMsg : List Char := "无法解析AI批改结果".data

/-- Message returned when the parsed score falls outside `[0, 100]`. -/
def rangeFailMsg : List Char := "AI返回的分数超出范围".data

/-- Body of `TongyiQianwenAPI.parse_grading_result`, over the char list of
the oracle text: take the first line containing
`"评分"`, split it on `':'`, convert segment 1 to `int`; take the first line
containing `"评价"`, split it on `':'`, strip segment 1; any failure along
the way (missing line, missing colon, non-numeric score) lands in the
`except` branch, and an out-of-range score is rejected after both lines
parsed. -/
def parseGradingChars (chars : List Char) : Option Int × List Char :=
  let lines := pySplit '\n' chars
  match lines.find? (fun l => pyContains scoreTok l) with
  | none => (none, parseFailMsg)
  | some score_line =>
    match (pySplit ':' score_line).get? 1 with
    | none => (none, parseFailMsg)
    | some scoreSeg =>
      match pyInt (pyStrip scoreSeg) with
      | none => (none, parseFailMsg)
      | some score =>
        match lines.find? (fun l => pyContains feedbackTok l) with
        | none => (none, parseFailMsg)
        | some feedback_line =>
          match (pySplit ':' feedback_line).get? 1 with
          | none => (none, parseFailMsg)
          | some feedbackSeg =>
            if 0 ≤ score ∧ score ≤ 100 then (some score, pyStrip feedbackSeg)
            else (none, rangeFailMsg)

/-- Wrapper of `parseGradingChars` at the `str` boundary: the source function
receives the oracle text as one string. -/
def parse_grading_result (text : String) : Option Int × List Char :=
  parseGradingChars text.data

/-- Source `TongyiQianwenAPI.get_grading`: every transport failure maps to an
`"AI批改出错: ..."` message, a malformed envelope to a fixed message, and a
returned text is handed to `parse_grading_result`. -/
def get_grading (resp : OracleOutcome) : Option Int × List Char :=
  match resp with
  | .netError m => (none, "AI批改出错: ".data ++ m)
  | .badEnvelope => (none, "AI批改失败，无法获取有效结果".data)
  | .text t => parse_grading_result t

/-- One record of the grade series fed to the Trend Analyzer. -/
structure GradeRecord where
  submitted_at : List Char
  grade : Int
  assignment_title : List Char

/-- Source `TongyiQianwenAPI.analyze_grade_trend`: fewer than 2 records short-circuits
to the insufficient-data message before any prompt is built or any request is
sent; otherwise the oracle outcome is mapped exactly as in the source (the
prompt text itself does not influence the returned value and is elided). -/
def analyze_grade_trend (class_name : List Char) (grade_data : List GradeRecord)
    (resp : OracleOutcome) : List Char × Bool :=
  if grade_data.isEmpty || grade_data.length < 2 then
    ("数据不足，无法进行趋势分析".data, false)
  else
    match resp with
    | .netError m => ("AI分析出错: ".data ++ m, false)
    | .badEnvelope => ("AI分析失败，无法获取有效结果".data, false)
    | .text t => (pyStrip t.data, true)

/-! ### `routes/student.py`: Content Extractor and Submission Orchestrator

File parsing itself is done by external libraries; what the repository owns
is the family of sentinel failure strings `extract_file_content` can return
(enumerated by `ExtractFailure`) and the orchestrator logic in
`submit_assignment` that classifies, combines and persists. The success case
of extraction (plain document text) enters the orchestrator as an arbitrary
char list, so the orchestrator is modelled over an arbitrary extractor
result. -/

/-- The failure cases of `extract_file_content`, one per `return` of a
sentinel string in the source (missing parser library, parser exception,
empty DOC text, unsupported extension after the orchestrator's own extension
filter, and the outer catch-all). -/
inductive ExtractFailure where
  | pdfNoLib
  | pdfError (e : List Char)
  | docxNoLib
  | docxError (e : List Char)
  | docEmpty
  | docNoLib
  | docError (e : List Char)
  | unsupported (ext : List Char)
  | generic (e : List Char)

/-- The exact sentinel string `extract_file_content` returns for each
failure case. -/
def failureString : ExtractFailure → List Char
  | .pdfNoLib => "无法提取PDF内容：请安装PyPDF2或pdfplumber库".data
  | .pdfError e => "PDF提取失败: ".data ++ e
  | .docxNoLib => "无法提取DOCX内容：请安装python-docx库".data
  | .docxError e => "DOCX提取失败: ".data ++ e
  | .docEmpty => "无法提取DOC文件内容".data
  | .docNoLib => "无法提取DOC内容：请安装docx2txt或python-docx库".data
  | .docError e => "DOC提取失败: ".data ++ e
  | .unsupported ext => "不支持的文件格式: ".data ++ ext
  | .generic e => "文件提取出错: ".data ++ e

/-- The failure-marker test `submit_assignment` applies to the extractor
output: `extracted.startswith("无法提取") or extracted.startswith("提取失败")
or extracted.startswith("不支持") or extracted.startswith("文件提取出错")`. -/
def recognizedExtractionFailure (s : List Char) : Bool :=
  pyStarts "无法提取".data s || pyStarts "提取失败".data s ||
    pyStarts "不支持".data s || pyStarts "文件提取出错".data s

/-- Step of `submit_assignment`: `file_content = extracted` when the extractor
output is truthy and not classified as a failure marker, else `''`. -/
def fileContentOf (extracted : List Char) : List Char :=
  if !extracted.isEmpty && !recognizedExtractionFailure extracted then extracted
  else []

/-- The visible separator inserted between text content and file content. -/
def fileSep : List Char := "\n\n--- 文件内容 ---\n\n".data

/-- Step of `submit_assignment`: combine the form text and the file-derived
text; each contributes only when truthy with truthy `strip()`, and both are
joined by `fileSep` when both contribute. -/
def combineContent (content file_content : List Char) : List Char :=
  let s1 := if !content.isEmpty && !(pyStrip content).isEmpty then pyStrip content else []
  if !file_content.isEmpty && !(pyStrip file_content).isEmpty then
    if !s1.isEmpty then s1 ++ fileSep ++ pyStrip file_content
    else pyStrip file_content
  else s1

/-- One row of the `submissions` table. -/
structure SubmissionRow where
  id : Nat
  assignment_id : Nat
  student_id : Nat
  content : List Char
  file_url : List Char
  submitted_at : Nat
  ai_score : Option Int
  ai_feedback : Option (List Char)
  score : Option Int
  feedback : Option (List Char)
  graded_at : Option Nat
deriving DecidableEq

/-- The `(assignment_id, student_id)` key test used by the orchestrator's
`SELECT`/`UPDATE` `WHERE` clauses. -/
def keyMatch (assignment_id student_id : Nat) (r : SubmissionRow) : Bool :=
  r.assignment_id == assignment_id && r.student_id == student_id

/-- All rows of the table with the given `(assignment_id, student_id)` key. -/
def rowsFor (db : List SubmissionRow) (assignment_id student_id : Nat) :
    List SubmissionRow :=
  db.filter (keyMatch assignment_id student_id)

/-- What happens at the AI-grading step of `submit_assignment`: either
constructing/importing the client raised (no API key configured), or the
client ran against some oracle outcome. -/
inductive GradingStep where
  | clientInitFailure
  | oracle (resp : OracleOutcome)

/-- Feedback recorded when no text and no usable file content was supplied. -/
def noContentMsg : List Char := "未提供文本内容或文件，无法进行AI批改".data

/-- Feedback recorded when the AI client could not be constructed. -/
def clientInitFailMsg : List Char := "AI批改服务暂时不可用".data

/-- The `(ai_score, ai_feedback)` pair `submit_assignment` computes: both
start as `None`; with nonempty combined content the client is invoked
(construction failure leaves the score `None` and sets the fixed feedback),
otherwise the fixed no-content feedback is recorded. -/
def aiFieldsFor (combined : List Char) (step : GradingStep) :
    Option Int × Option (List Char) :=
  if !combined.isEmpty then
    match step with
    | .clientInitFailure => (none, some clientInitFailMsg)
    | .oracle resp =>
      let r := get_grading resp
      (r.1, some r.2)
  else (none, some noContentMsg)

/-- Effect of the orchestrator's `UPDATE` on one row: content, file_url,
submitted_at and the AI fields are replaced; id, key and teacher fields are
left alone. -/
def overwriteRow (content file_url : List Char) (now : Nat)
    (ai_score : Option Int) (ai_feedback : Option (List Char))
    (r : SubmissionRow) : SubmissionRow :=
  { r with content := content, file_url := file_url, submitted_at := now,
           ai_score := ai_score, ai_feedback := ai_feedback }

/-- The orchestrator's persistence step: `SELECT id ... fetchone()` on the
`(assignment_id, student_id)` key, then either `UPDATE` of content,
file_url, submitted_at and the AI fields on every key-matching row
(teacher fields untouched), or `INSERT` of a fresh row whose teacher fields
are NULL. -/
def upsertSubmission (db : List SubmissionRow) (newId assignment_id student_id : Nat)
    (content file_url : List Char) (now : Nat)
    (ai_score : Option Int) (ai_feedback : Option (List Char)) : List SubmissionRow :=
  if db.any (keyMatch assignment_id student_id) then
    db.map (fun r =>
      if keyMatch assignment_id student_id r then
        overwriteRow content file_url now ai_score ai_feedback r
      else r)
  else
    db ++ [{ id := newId, assignment_id := assignment_id, student_id := student_id,
             content := content, file_url := file_url, submitted_at := now,
             ai_score := ai_score, ai_feedback := ai_feedback,
             score := none, feedback := none, graded_at := none }]

/-- The `file_url` recorded for an optional uploaded file. -/
def fileUrlOf : Option (List Char × List Char) → List Char
  | none => []
  | some (u, _) => u

/-- The file-derived text for an optional uploaded file: the extractor output
run through the orchestrator's failure-marker filter. -/
def fileTextOf : Option (List Char × List Char) → List Char
  | none => []
  | some (_, ex) => fileContentOf ex

/-- Source `submit_assignment` end to end, for a request past the role check.
`file = some (url, extracted)` models an uploaded file with an allowed
extension, already saved under `url`, whose extraction produced `extracted`;
`file = none` models no file (or a disallowed extension), leaving
`file_url = ''` and `file_content = ''`. `newId` is the row id the store
assigns on insert; the route then replies with a success body regardless of
the grading outcome (database write failure is the only failure path and is
outside this model). -/
def submit_assignment (db : List SubmissionRow) (newId assignment_id student_id now : Nat)
    (content : List Char) (file : Option (List Char × List Char))
    (step : GradingStep) : List SubmissionRow :=
  let file_url := fileUrlOf file
  let file_content := fileTextOf file
  let combined := combineContent content file_content
  let ai := aiFieldsFor combined step
  upsertSubmission db newId assignment_id student_id content file_url now ai.1 ai.2

/-- The client-level failure cases of one grading step: client construction
failure, transport/HTTP error (timeouts and non-2xx included), malformed
response envelope, or a returned text the parser rejects. -/
def gradingFailed : GradingStep → Prop
  | .clientInitFailure => True
  | .oracle (.netError _) => True
  | .oracle .badEnvelope => True
  | .oracle (.text t) => (parse_grading_result t).1 = none

/-! ### `routes/student.py`: `get_grade_trend`, the score-trend query -/

/-- One row of the `assignments` table (columns the trend query touches). -/
structure Assignment where
  id : Nat
  title : List Char
  description : List Char
  teacher_id : Nat
  class_id : Nat
  deadline : Nat
deriving DecidableEq

/-- The value `COALESCE(s.score, s.ai_score)` as computed by the trend query. -/
def gradeOf (r : SubmissionRow) : Option Int :=
  match r.score with
  | some v => some v
  | none => r.ai_score

/-- One record of the per-class trend series
(`s.id, s.submitted_at, COALESCE(..) as grade, a.title`). -/
structure TrendPoint where
  id : Nat
  submitted_at : Nat
  grade : Option Int
  assignment_title : List Char
deriving DecidableEq

/-- The `WHERE` part of the per-class trend query: join `submissions` with
`assignments` on `s.assignment_id = a.id`, keep the student's rows in the
class that have a teacher score or an AI score, and project each to a
`TrendPoint`. -/
def scoredRows (db : List SubmissionRow) (assignments : List Assignment)
    (student_id class_id : Nat) : List TrendPoint :=
  ((db.flatMap (fun s =>
      (assignments.filter (fun a => a.id == s.assignment_id)).map (fun a => (s, a))))
    |>.filter (fun p => p.1.student_id == student_id && p.2.class_id == class_id &&
      (p.1.score.isSome || p.1.ai_score.isSome)))
    |>.map (fun p => { id := p.1.id, submitted_at := p.1.submitted_at,
                       grade := gradeOf p.1, assignment_title := p.2.title })

/-- Relation for `ORDER BY s.submitted_at DESC` (the store does not specify tie order;
insertion sort is one refinement of it). -/
def laterFirst (a b : TrendPoint) : Prop := b.submitted_at ≤ a.submitted_at

/-- Ascending re-sort key used by `sorted(submissions, key=submitted_at)`. -/
def earlierFirst (a b : TrendPoint) : Prop := a.submitted_at ≤ b.submitted_at

instance : DecidableRel laterFirst := fun a b => Nat.decLe b.submitted_at a.submitted_at

instance : DecidableRel earlierFirst := fun a b => Nat.decLe a.submitted_at b.submitted_at

instance : IsTotal TrendPoint laterFirst :=
  ⟨fun a b => (Nat.le_total b.submitted_at a.submitted_at).imp id id⟩

instance : IsTrans TrendPoint laterFirst :=
  ⟨fun _ _ _ h1 h2 => Nat.le_trans h2 h1⟩

instance : IsTotal TrendPoint earlierFirst :=
  ⟨fun a b => (Nat.le_total a.submitted_at b.submitted_at).imp id id⟩

instance : IsTrans TrendPoint earlierFirst :=
  ⟨fun _ _ _ h1 h2 => Nat.le_trans h1 h2⟩

/-- One row of the `classes` table as the trend route reads it. -/
structure ClassInfo where
  id : Nat
  name : List Char
  code : List Char
deriving DecidableEq

/-- One entry of the trend route's response (`class_id`, `class_name`,
`class_code` and the ascending per-class series). -/
structure TrendEntry where
  class_id : Nat
  class_name : List Char
  class_code : List Char
  submissions : List TrendPoint
deriving DecidableEq

/-- Source `get_grade_trend`, past the role check: for each enrolled class (the
`classes` parameter holds that query's result), take the per-class scored
rows ordered latest-first, keep at most 5 (`LIMIT 5`), skip the class when
that list is empty, and otherwise re-sort the kept rows ascending by
submission time. -/
def get_grade_trend (db : List SubmissionRow) (assignments : List Assignment)
    (classes : List ClassInfo) (student_id : Nat) : List TrendEntry :=
  classes.filterMap (fun c =>
    let submissions :=
      (List.insertionSort laterFirst (scoredRows db assignments student_id c.id)).take 5
    if submissions.isEmpty then none
    else some { class_id := c.id, class_name := c.name, class_code := c.code,
                submissions := List.insertionSort earlierFirst submissions })

/-! ### `routes/teacher.py`: `grade_submission` -/

/-- Source `grade_submission`, modelled at the level of its observable effect: after
the role check it runs `UPDATE submissions SET score, feedback, graded_at
WHERE id = submission_id` and replies 200, never consulting `assignments`
ownership and never producing 404. The first component is the HTTP status. -/
def grade_submission (db : List SubmissionRow) (role : List Char)
    (submission_id : Nat) (score : Int) (feedback : List Char) (now : Nat) :
    Nat × List SubmissionRow :=
  if role ≠ "teacher".data then (403, db)
  else
    (200, db.map (fun r =>
      if r.id == submission_id then
        { r with score := some score, feedback := some feedback, graded_at := some now }
      else r))

/-! ### `routes/auth.py`: Token Service and refresh flow

A JWT is modelled as its decoded payload together with the key it was signed
with; `jwt.decode(token, secret, ...)` succeeds exactly when the keys agree
(signature check), and `options={"verify_exp": False}` means the refresh
path never examines `exp`. -/

/-- The `user` claims embedded in a token payload. -/
structure UserClaims where
  id : Nat
  username : List Char
  role : List Char
deriving DecidableEq

/-- A signed token: payload (`exp`, `iat`, `user`) plus signing key. -/
structure Token where
  exp : Nat
  iat : Nat
  user : UserClaims
  signedWith : List Char
deriving DecidableEq

/-- Token lifetime `timedelta(days=1)` in seconds. -/
def tokenLifetime : Nat := 86400

/-- Source `generate_token`: payload `{exp: now + 1 day, iat: now, user}` signed
with the application secret. -/
def generate_token (secret : List Char) (now : Nat) (user : UserClaims) : Token :=
  { exp := now + tokenLifetime, iat := now, user := user, signedWith := secret }

/-- One row of the `users` table (the columns the refresh flow selects;
the remaining columns are never consulted by it). -/
structure UserRow where
  id : Nat
  username : List Char
  role : List Char
deriving DecidableEq

/-- Outcome of the refresh endpoint (the route maps `missingToken`,
`invalidToken` and `userNotFound` to HTTP 401 and `success` to 200). -/
inductive RefreshResult where
  | success (token : Token)
  | missingToken
  | invalidToken
  | userNotFound
deriving DecidableEq

/-- Source `refresh_token`: extract the bearer token, decode it with
`verify_exp: False` (signature must match the process secret, expiry is
ignored), re-resolve `(id, username, role)` against the `users` table, and
issue a fresh token from the re-resolved row. -/
def refresh_token (secret : List Char) (users : List UserRow) (now : Nat)
    (tok : Option Token) : RefreshResult :=
  match tok with
  | none => .missingToken
  | some t =>
    if t.signedWith ≠ secret then .invalidToken
    else
      match users.find? (fun u =>
          u.id == t.user.id && u.username == t.user.username && u.role == t.user.role) with
      | none => .userNotFound
      | some u => .success (generate_token secret now ⟨u.id, u.username, u.role⟩)

/-- Submission row used by the C7 counterexample: id 10, belonging to the
assignment with id 3 whose owner is the teacher with id 1. -/
def c7Submission : SubmissionRow :=
  { id := 10, assignment_id := 3, student_id := 5, content := "答案".data,
    file_url := [], submitted_at := 100, ai_score := some 70, ai_feedback := none,
    score := none, feedback := none, graded_at := none }

/-- Assignment row used by the C7 counterexample: owned by teacher 1, so any
other teacher (say id 2) does not own it. -/
def c7Assignment : Assignment :=
  { id := 3, title := "hw1".data, description := "d".data, teacher_id := 1,
    class_id := 7, deadline := 500 }

/-- User row used by the C8 witness. -/
def c8User : UserRow := { id := 1, username := "alice".data, role := "student".data }

/-- An expired token (expiry 5) for the C8 witness user, signed with the
process secret. -/
def c8Token : Token :=
  { exp := 5, iat := 0,
    user := { id := 1, username := "alice".data, role := "student".data },
    signedWith := "s3cret".data }

/-- An expired token whose subject no longer exists in the store, for the
C8 witness. -/
def c8GhostToken : Token :=
  { exp := 5, iat := 0,
    user := { id := 2, username := "bob".data, role := "student".data },
    signedWith := "s3cret".data }

/-! ### Lemmas about the string primitives -/

theorem pySplit_of_not_mem (sep : Char) (l : List Char) (h : sep ∉ l) :
    pySplit sep l = [l] := by
  induction l with
  | nil => rfl
  | cons c rest ih =>
    rw [List.mem_cons, not_or] at h
    simp only [pySplit, if_neg (Ne.symm h.1), ih h.2]

theorem pySplit_append_cons (sep : Char) (xs ys : List Char) (h : sep ∉ xs) :
    pySplit sep (xs ++ sep :: ys) = xs :: pySplit sep ys := by
  induction xs with
  | nil => simp [pySplit]
  | cons c rest ih =>
    rw [List.mem_cons, not_or] at h
    simp only [List.cons_append, pySplit, if_neg (Ne.symm h.1), List.append_eq, ih h.2]

/-! ### Shape of `parseGradingChars` results -/

theorem parseGradingChars_cases (chars : List Char) :
    (∃ n : Int, 0 ≤ n ∧ n ≤ 100 ∧ ∃ fb, parseGradingChars chars = (some n, fb)) ∨
      parseGradingChars chars = (none, parseFailMsg) ∨
      parseGradingChars chars = (none, rangeFailMsg) := by
  simp only [parseGradingChars]
  rcases h1 : List.find? (fun l => pyContains scoreTok l) (pySplit '\n' chars) with _ | score_line
  · exact Or.inr (Or.inl rfl)
  dsimp only
  rcases h2 : (pySplit ':' score_line).get? 1 with _ | scoreSeg
  · exact Or.inr (Or.inl rfl)
  dsimp only
  rcases h3 : pyInt (pyStrip scoreSeg) with _ | score
  · exact Or.inr (Or.inl rfl)
  dsimp only
  rcases h4 : List.find? (fun l => pyContains feedbackTok l) (pySplit '\n' chars) with _ | feedback_line
  · exact Or.inr (Or.inl rfl)
  dsimp only
  rcases h5 : (pySplit ':' feedback_line).get? 1 with _ | feedbackSeg
  · exact Or.inr (Or.inl rfl)
  dsimp only
  by_cases hr : 0 ≤ score ∧ score ≤ 100
  · exact Or.inl ⟨score, hr.1, hr.2, pyStrip feedbackSeg, by rw [if_pos hr]⟩
  · exact Or.inr (Or.inr (by rw [if_neg hr]))

/-! ### Claim theorems -/

/-- C3: `parse_grading_result` is total and range-safe — every input yields
either a score in `[0, 100]` with a feedback string or `(None, reason)`
(totality being inherent in the function being defined at all inputs), and
the three concrete behaviours named by the claim hold: the well-formed text
parses to `(87, "Good work")`, a score segment of `150` yields the
range-error result, and a text with no score line yields the parse-error
result. -/
theorem parse_grading_result_total_and_range_safe :
    (∀ text : String, (parse_grading_result text).1 = none ∨
        ∃ n : Int, (parse_grading_result text).1 = some n ∧ 0 ≤ n ∧ n ≤ 100) ∧
      parse_grading_result "1. 评分(0-100分): 87\n2. 评价: Good work" =
        (some 87, "Good work".data) ∧
      parse_grading_result "1. 评分(0-100分): 150\n2. 评价: ok" = (none, rangeFailMsg) ∧
      parse_grading_result "hello" = (none, parseFailMsg) := by
  refine ⟨fun text => ?_, by decide, by decide, by decide⟩
  rcases parseGradingChars_cases text.data with ⟨n, h0, h1, fb, heq⟩ | heq | heq
  · exact Or.inr ⟨n, by simp [parse_grading_result, heq], h0, h1⟩
  · exact Or.inl (by simp [parse_grading_result, heq])
  · exact Or.inl (by simp [parse_grading_result, heq])

/-- C2 (counterexample): on a feedback line whose trailing text contains a
further colon, the parser does not return the entire trailing segment after
the first colon — the claim predicts feedback `"good: extra"` (the whole
trailing segment, trimmed), but the code returns only `"good"`, the segment
between the first and second colon. -/
theorem parse_grading_result_truncates_feedback_counterexample :
    parse_grading_result "1. 评分(0-100分): 87\n2. 评价: good: extra" =
        (some 87, "good".data) ∧
      pyStrip " good: extra".data = "good: extra".data ∧
      "good".data ≠ "good: extra".data := by
  refine ⟨by decide, by decide, by decide⟩

/-- C2 (amended): `parse_grading_result` takes the first line containing
`"评分"` and the first line containing `"评价"`, and within each line splits
on colons and returns only the segment between the first and the second
colon, trimmed — any text after a second colon in the feedback line is
dropped. Stated for every feedback tail `b ++ ":" ++ c` with `b` colon-free
and `b`, `c` newline-free: the feedback returned is `strip b`, independent
of `c`. -/
theorem parse_grading_result_feedback_between_colons (b c : List Char)
    (hb : '\n' ∉ b) (hc : '\n' ∉ c) (hcolon : ':' ∉ b) :
    parse_grading_result (String.mk ("1. 评分(0-100分): 87".data ++
        '\n' :: ("2. 评价".data ++ ':' :: (b ++ ':' :: c)))) =
      (some 87, pyStrip b) := by
  have hmem : '\n' ∉ ("2. 评价".data ++ ':' :: (b ++ ':' :: c)) := by
    intro hm
    rcases List.mem_append.mp hm with h | h
    · exact absurd h (by decide)
    rcases List.mem_cons.mp h with h | h
    · exact absurd h (by decide)
    rcases List.mem_append.mp h with h | h
    · exact hb h
    rcases List.mem_cons.mp h with h | h
    · exact absurd h (by decide)
    · exact hc h
  have hsplit : pySplit '\n' ("1. 评分(0-100分): 87".data ++
        '\n' :: ("2. 评价".data ++ ':' :: (b ++ ':' :: c))) =
      ["1. 评分(0-100分): 87".data, "2. 评价".data ++ ':' :: (b ++ ':' :: c)] := by
    rw [pySplit_append_cons _ _ _ (by decide), pySplit_of_not_mem _ _ hmem]
  have hfb : pySplit ':' ("2. 评价".data ++ ':' :: (b ++ ':' :: c)) =
      "2. 评价".data :: b :: pySplit ':' c := by
    rw [pySplit_append_cons _ _ _ (by decide), pySplit_append_cons _ _ _ hcolon]
  have hfind1 : pyContains scoreTok "1. 评分(0-100分): 87".data = true := by decide
  have hfind2 : pyContains feedbackTok "1. 评分(0-100分): 87".data = false := by decide
  have hfind3 : pyContains feedbackTok ("2. 评价".data ++ ':' :: (b ++ ':' :: c)) = true := rfl
  have e1 : List.find? (fun l => pyContains scoreTok l)
      (pySplit '\n' ("1. 评分(0-100分): 87".data ++
        '\n' :: ("2. 评价".data ++ ':' :: (b ++ ':' :: c)))) =
      some "1. 评分(0-100分): 87".data := by
    rw [hsplit]
    simp only [List.find?, hfind1]
  have e2 : List.find? (fun l => pyContains feedbackTok l)
      (pySplit '\n' ("1. 评分(0-100分): 87".data ++
        '\n' :: ("2. 评价".data ++ ':' :: (b ++ ':' :: c)))) =
      some ("2. 评价".data ++ ':' :: (b ++ ':' :: c)) := by
    rw [hsplit]
    simp only [List.find?, hfind2, hfind3]
  have e3 : (pySplit ':' "1. 评分(0-100分): 87".data).get? 1 = some " 87".data := by
    decide
  have e4 : pyInt (pyStrip " 87".data) = some (87 : Int) := by decide
  have e5 : ("2. 评价".data :: b :: pySplit ':' c).get? 1 = some b := rfl
  show parseGradingChars ("1. 评分(0-100分): 87".data ++
      '\n' :: ("2. 评价".data ++ ':' :: (b ++ ':' :: c))) = (some 87, pyStrip b)
  simp only [parseGradingChars, e1, e2, e3, e4, hfb, e5]
  rw [if_pos (by norm_num)]

/-- Witness for C2 (amended) at `b = " good"`, `c = " extra"`: the built text
is exactly the counterexample text and the feedback comes back as
`strip " good"`. -/
theorem parse_grading_result_feedback_between_colons_witness :
    parse_grading_result (String.mk ("1. 评分(0-100分): 87".data ++
        '\n' :: ("2. 评价".data ++ ':' :: (" good".data ++ ':' :: " extra".data)))) =
      (some 87, pyStrip " good".data) :=
  parse_grading_result_feedback_between_colons " good".data " extra".data
    (by decide) (by decide) (by decide)

/-- C9: with fewer than 2 grade records (empty series included) the Trend
Analyzer returns the fixed insufficient-data message paired with `false`,
and the result does not depend on the oracle at all (the external service is
not consulted); totality of the Lean function reflects that no error is
raised on this path. -/
theorem analyze_grade_trend_insufficient_data (class_name : List Char)
    (grade_data : List GradeRecord) (resp other : OracleOutcome)
    (h : grade_data.length < 2) :
    analyze_grade_trend class_name grade_data resp =
        ("数据不足，无法进行趋势分析".data, false) ∧
      analyze_grade_trend class_name grade_data resp =
        analyze_grade_trend class_name grade_data other := by
  constructor <;> simp [analyze_grade_trend, h]

/-- Witness for C9 at the empty series and at a one-record series, with two
different oracle outcomes. -/
theorem analyze_grade_trend_insufficient_data_witness :
    (analyze_grade_trend "一班".data [] .badEnvelope =
        ("数据不足，无法进行趋势分析".data, false) ∧
      analyze_grade_trend "一班".data [] .badEnvelope =
        analyze_grade_trend "一班".data [] (.text "up")) ∧
    (analyze_grade_trend "一班".data [⟨"2024-01-01".data, 80, "hw1".data⟩] (.text "up") =
        ("数据不足，无法进行趋势分析".data, false) ∧
      analyze_grade_trend "一班".data [⟨"2024-01-01".data, 80, "hw1".data⟩] (.text "up") =
        analyze_grade_trend "一班".data [⟨"2024-01-01".data, 80, "hw1".data⟩]
          (.netError "timeout".data)) :=
  ⟨analyze_grade_trend_insufficient_data "一班".data [] .badEnvelope (.text "up")
      (by decide),
    analyze_grade_trend_insufficient_data "一班".data
      [⟨"2024-01-01".data, 80, "hw1".data⟩] (.text "up") (.netError "timeout".data)
      (by decide)⟩

/-- C1 (code evaluated at the failing inputs): the orchestrator's
failure-marker test misses exactly the three parser-exception sentinels — for
every exception text `e`, the strings `"PDF提取失败: " ++ e`,
`"DOCX提取失败: " ++ e` and `"DOC提取失败: " ++ e` are not recognized as
failures (none of the four checked prefixes matches them), so `file_content`
keeps the sentinel and it flows into the combined content handed to the
Grading Oracle Client, as the concrete evaluation at
`"PDF提取失败: EOF marker not found"` shows; the other six sentinel families
are recognized and correctly replaced by empty content. -/
theorem extraction_failure_marker_gap :
    (∀ e : List Char,
        recognizedExtractionFailure (failureString (.pdfError e)) = false ∧
        recognizedExtractionFailure (failureString (.docxError e)) = false ∧
        recognizedExtractionFailure (failureString (.docError e)) = false ∧
        fileContentOf (failureString (.pdfError e)) = failureString (.pdfError e) ∧
        fileContentOf (failureString (.docxError e)) = failureString (.docxError e) ∧
        fileContentOf (failureString (.docError e)) = failureString (.docError e)) ∧
    (∀ e ext : List Char,
        recognizedExtractionFailure (failureString .pdfNoLib) = true ∧
        recognizedExtractionFailure (failureString .docxNoLib) = true ∧
        recognizedExtractionFailure (failureString .docEmpty) = true ∧
        recognizedExtractionFailure (failureString .docNoLib) = true ∧
        recognizedExtractionFailure (failureString (.unsupported ext)) = true ∧
        recognizedExtractionFailure (failureString (.generic e)) = true ∧
        fileContentOf (failureString (.generic e)) = [] ∧
        fileContentOf (failureString (.unsupported ext)) = []) ∧
    combineContent [] (failureString (.pdfError "EOF marker not found".data)) =
      "PDF提取失败: EOF marker not found".data ∧
    pyContains "PDF提取失败".data (combineContent []
      (failureString (.pdfError "EOF marker not found".data))) = true :=
  ⟨fun _ => ⟨rfl, rfl, rfl, rfl, rfl, rfl⟩,
    fun _ _ => ⟨rfl, rfl, rfl, rfl, rfl, rfl, rfl, rfl⟩,
    by decide, by decide⟩

/-- C6: wherever both a teacher score and an AI score exist, the trend
query's `COALESCE(s.score, s.ai_score)` reports the teacher score — never an
average — and concretely a submission with `score = 90`, `ai_score = 70`
surfaces in the route's response with grade `90` (not `80`). -/
theorem teacher_score_precedence (r : SubmissionRow) (s a : Int)
    (hs : r.score = some s) (ha : r.ai_score = some a) :
    gradeOf r = some s ∧
      get_grade_trend
          [{ id := 10, assignment_id := 3, student_id := 5, content := "答案".data,
             file_url := [], submitted_at := 100, ai_score := some 70,
             ai_feedback := none, score := some 90, feedback := none,
             graded_at := none }]
          [{ id := 3, title := "hw1".data, description := "d".data,
             teacher_id := 1, class_id := 7, deadline := 500 }]
          [{ id := 7, name := "一班".data, code := "ABC123".data }] 5 =
        [{ class_id := 7, class_name := "一班".data, class_code := "ABC123".data,
           submissions := [{ id := 10, submitted_at := 100, grade := some 90,
                             assignment_title := "hw1".data }] }] ∧
      (some (90 : Int) ≠ some ((90 + 70) / 2 : Int)) := by
  refine ⟨?_, by decide, by decide⟩
  simp [gradeOf, hs]

/-- Witness for C6 at a concrete row carrying both scores. -/
theorem teacher_score_precedence_witness :
    gradeOf { id := 10, assignment_id := 3, student_id := 5, content := "答案".data,
              file_url := [], submitted_at := 100, ai_score := some 70,
              ai_feedback := none, score := some 90, feedback := none,
              graded_at := none } = some 90 :=
  (teacher_score_precedence _ 90 70 rfl rfl).1

/-- C7 (counterexample): `grade_submission` never consults the parent
assignment — the handler reads only the caller's role, so the call carries no
caller identity at all and behaves identically for every authenticated
teacher, including one who does not own assignment 3 (owned by teacher 1).
Grading submission 10 succeeds with HTTP 200 (not 404) and the row is
rewritten, contradicting the claim that a non-owner's request fails with 404
and leaves the row unchanged. -/
theorem grade_submission_ignores_ownership_counterexample :
    c7Assignment.teacher_id = 1 ∧
      (grade_submission [c7Submission] "teacher".data 10 95 "well done".data 200).1 = 200 ∧
      (grade_submission [c7Submission] "teacher".data 10 95 "well done".data 200).1 ≠ 404 ∧
      (grade_submission [c7Submission] "teacher".data 10 95 "well done".data 200).2 ≠
        [c7Submission] ∧
      (grade_submission [c7Submission] "teacher".data 10 95 "well done".data 200).2 =
        [{ c7Submission with
            score := some 95
            feedback := some "well done".data
            graded_at := some 200 }] := by
  refine ⟨rfl, by decide, by decide, by decide, by decide⟩

/-- C7 (amended): `grade_submission` enforces only the teacher role; it
updates every row whose id matches, writing teacher score, feedback and
graded_at, and replies 200 whether or not the caller owns the parent
assignment (the handler has no 404 path and never reads the `assignments`
table). -/
theorem grade_submission_no_ownership_check (db : List SubmissionRow)
    (submission_id : Nat) (sc : Int) (fb : List Char) (now : Nat) :
    (grade_submission db "teacher".data submission_id sc fb now).1 = 200 ∧
      ∀ r ∈ db, r.id = submission_id →
        { r with score := some sc, feedback := some fb, graded_at := some now } ∈
          (grade_submission db "teacher".data submission_id sc fb now).2 := by
  have hrole : ¬ ("teacher".data ≠ "teacher".data) := fun h => h rfl
  have hdef : grade_submission db "teacher".data submission_id sc fb now =
      (200, db.map (fun r =>
        if r.id == submission_id then
          { r with score := some sc, feedback := some fb, graded_at := some now }
        else r)) := by
    unfold grade_submission
    rw [if_neg hrole]
  refine ⟨by rw [hdef], fun r hr hid => ?_⟩
  rw [hdef]
  exact List.mem_map.mpr ⟨r, hr, by simp [hid]⟩

/-- Witness for C7 (amended) at the concrete store of the counterexample. -/
theorem grade_submission_no_ownership_check_witness :
    { c7Submission with
      score := some 95
      feedback := some "well done".data
      graded_at := some 200 } ∈
      (grade_submission [c7Submission] "teacher".data 10 95 "well done".data 200).2 :=
  (grade_submission_no_ownership_check [c7Submission] 10 95 "well done".data 200).2
    c7Submission (by simp) rfl

/-- C8: a token signed with the process secret but already expired still
refreshes — decoding ignores expiry, the subject is re-resolved against the
`users` table, and when a row with the token's `(id, username, role)` still
exists the endpoint returns a fresh token whose expiry `now + 1 day` is
strictly later than the old expiry; when no such row exists the endpoint
returns the user-not-found result. -/
theorem refresh_token_expired_token_refreshes (secret : List Char)
    (users : List UserRow) (now : Nat) (t : Token)
    (hsig : t.signedWith = secret) (hexp : t.exp < now) :
    ((∃ u ∈ users, u.id = t.user.id ∧ u.username = t.user.username ∧
        u.role = t.user.role) →
      ∃ newTok, refresh_token secret users now (some t) = .success newTok ∧
        t.exp < newTok.exp) ∧
    (users.find? (fun u => u.id == t.user.id && u.username == t.user.username &&
        u.role == t.user.role) = none →
      refresh_token secret users now (some t) = .userNotFound) := by
  have hne : ¬ (t.signedWith ≠ secret) := fun h => h hsig
  constructor
  · rintro ⟨u, hu, h1, h2, h3⟩
    have hex : ∃ x ∈ users, (x.id == t.user.id && x.username == t.user.username &&
        x.role == t.user.role) = true := ⟨u, hu, by simp [h1, h2, h3]⟩
    obtain ⟨w, hw⟩ := Option.isSome_iff_exists.mp (List.find?_isSome.mpr hex)
    refine ⟨generate_token secret now ⟨w.id, w.username, w.role⟩, ?_, ?_⟩
    · unfold refresh_token
      dsimp only
      rw [if_neg hne, hw]
    · exact lt_of_lt_of_le hexp (Nat.le_add_right now tokenLifetime)
  · intro hnone
    unfold refresh_token
    dsimp only
    rw [if_neg hne, hnone]

/-- Witness for C8: a token that expired at time 5, refreshed at time 100,
for a still-existing user, plus the user-not-found case for a token whose
subject is absent from the store. -/
theorem refresh_token_expired_token_refreshes_witness :
    (∃ newTok, refresh_token "s3cret".data [c8User] 100 (some c8Token) =
        .success newTok ∧ c8Token.exp < newTok.exp) ∧
    refresh_token "s3cret".data [c8User] 100 (some c8GhostToken) = .userNotFound :=
  ⟨(refresh_token_expired_token_refreshes "s3cret".data [c8User] 100 c8Token rfl
        (by decide)).1 ⟨c8User, by simp, rfl, rfl, rfl⟩,
    (refresh_token_expired_token_refreshes "s3cret".data [c8User] 100 c8GhostToken rfl
        (by decide)).2 (by decide)⟩

/-! ### Lemmas about the upsert step -/

theorem keyMatch_overwriteRow (a s : Nat) (c u : List Char) (t : Nat)
    (sc : Option Int) (fb : Option (List Char)) (r : SubmissionRow) :
    keyMatch a s (overwriteRow c u t sc fb r) = keyMatch a s r := rfl

theorem rowsFor_map_overwrite (a s : Nat) (c u : List Char) (t : Nat)
    (sc : Option Int) (fb : Option (List Char)) (db : List SubmissionRow) :
    rowsFor (db.map (fun r =>
        if keyMatch a s r then overwriteRow c u t sc fb r else r)) a s =
      (rowsFor db a s).map (overwriteRow c u t sc fb) := by
  induction db with
  | nil => rfl
  | cons hd tl ih =>
    simp only [rowsFor] at ih ⊢
    cases h : keyMatch a s hd with
    | false =>
      simp [List.filter_cons, h, ih]
    | true =>
      simp [List.filter_cons, h, keyMatch_overwriteRow, ih]

theorem rowsFor_upsert (db : List SubmissionRow) (newId a s : Nat)
    (c u : List Char) (t : Nat) (sc : Option Int) (fb : Option (List Char))
    (hlen : (rowsFor db a s).length ≤ 1) :
    ∃ r, rowsFor (upsertSubmission db newId a s c u t sc fb) a s = [r] ∧
      r.content = c ∧ r.file_url = u ∧ r.submitted_at = t ∧
      r.ai_score = sc ∧ r.ai_feedback = fb := by
  unfold upsertSubmission
  cases hany : db.any (keyMatch a s) with
  | false =>
    rw [if_neg (by simp [hany])]
    have hnil : List.filter (keyMatch a s) db = [] :=
      List.filter_eq_nil_iff.mpr (fun x hx => by
        simpa using List.any_eq_false.mp hany x hx)
    refine ⟨{ id := newId, assignment_id := a, student_id := s, content := c,
              file_url := u, submitted_at := t, ai_score := sc, ai_feedback := fb,
              score := none, feedback := none, graded_at := none },
      ?_, rfl, rfl, rfl, rfl, rfl⟩
    rw [rowsFor, List.filter_append, hnil]
    simp [keyMatch]
  | true =>
    rw [if_pos rfl, rowsFor_map_overwrite]
    obtain ⟨x, hx, hpx⟩ := List.any_eq_true.mp hany
    have hne : rowsFor db a s ≠ [] := fun h =>
      absurd hpx (by simpa using List.filter_eq_nil_iff.mp h x hx)
    rcases hrows : rowsFor db a s with _ | ⟨r0, _ | ⟨r1, rest⟩⟩
    · exact absurd hrows hne
    · exact ⟨overwriteRow c u t sc fb r0, rfl, rfl, rfl, rfl, rfl, rfl⟩
    · rw [hrows] at hlen
      simp at hlen

theorem submit_assignment_rowsFor (db : List SubmissionRow)
    (newId a s now : Nat) (content : List Char)
    (file : Option (List Char × List Char)) (step : GradingStep)
    (hlen : (rowsFor db a s).length ≤ 1) :
    ∃ r, rowsFor (submit_assignment db newId a s now content file step) a s = [r] ∧
      r.content = content ∧ r.file_url = fileUrlOf file ∧ r.submitted_at = now ∧
      r.ai_score = (aiFieldsFor (combineContent content (fileTextOf file)) step).1 ∧
      r.ai_feedback = (aiFieldsFor (combineContent content (fileTextOf file)) step).2 :=
  rowsFor_upsert db newId a s content (fileUrlOf file) now _ _ hlen

theorem aiFieldsFor_failed (combined : List Char) (step : GradingStep)
    (hne : combined ≠ []) (hfail : gradingFailed step) :
    (aiFieldsFor combined step).1 = none ∧
      ∃ msg, (aiFieldsFor combined step).2 = some msg ∧ msg ≠ [] := by
  have hcond : combined.isEmpty = false := by
    cases combined
    · exact absurd rfl hne
    · rfl
  unfold aiFieldsFor
  rw [hcond]
  cases step with
  | clientInitFailure => exact ⟨rfl, clientInitFailMsg, rfl, by decide⟩
  | oracle resp =>
    cases resp with
    | netError m => exact ⟨rfl, "AI批改出错: ".data ++ m, rfl, by simp⟩
    | badEnvelope => exact ⟨rfl, "AI批改失败，无法获取有效结果".data, rfl, by decide⟩
    | text t =>
      have hnone : (parse_grading_result t).1 = none := hfail
      refine ⟨hnone, (parse_grading_result t).2, rfl, ?_⟩
      rcases parseGradingChars_cases t.data with ⟨n, _, _, fb, heq⟩ | heq | heq
      · exact absurd (by simp [parse_grading_result, heq] : (parse_grading_result t).1 = some n)
          (by simp [hnone])
      · rw [show (parse_grading_result t).2 = parseFailMsg by
          simp [parse_grading_result, heq]]
        decide
      · rw [show (parse_grading_result t).2 = rangeFailMsg by
          simp [parse_grading_result, heq]]
        decide

/-- C4: when the combined submission content is nonempty and the Grading
Oracle Client fails in any of its ways (client construction failure, network
or HTTP error, malformed envelope, or unparseable text), the submission
still succeeds: exactly one row for the `(assignment, student)` key is
persisted carrying the submitted content and file reference, with a null
`ai_score` and a nonempty explanatory `ai_feedback` string — no oracle
failure propagates as a failure of the submission operation (the modelled
orchestrator is total and always reaches the upsert). -/
theorem submission_survives_grading_failure (db : List SubmissionRow)
    (newId a s now : Nat) (content : List Char)
    (file : Option (List Char × List Char)) (step : GradingStep)
    (hlen : (rowsFor db a s).length ≤ 1)
    (hcontent : combineContent content (fileTextOf file) ≠ [])
    (hfail : gradingFailed step) :
    ∃ r, rowsFor (submit_assignment db newId a s now content file step) a s = [r] ∧
      r.content = content ∧ r.file_url = fileUrlOf file ∧
      r.ai_score = none ∧ ∃ msg, r.ai_feedback = some msg ∧ msg ≠ [] := by
  obtain ⟨r, hr, hc, hu, _, hsc, hfb⟩ :=
    submit_assignment_rowsFor db newId a s now content file step hlen
  obtain ⟨h1, msg, h2, h3⟩ := aiFieldsFor_failed _ step hcontent hfail
  exact ⟨r, hr, hc, hu, by rw [hsc, h1], msg, by rw [hfb, h2], h3⟩

/-- Witness for C4: an empty store, text content `"hi"`, no file, and an
oracle reply with a malformed envelope. -/
theorem submission_survives_grading_failure_witness :
    ∃ r, rowsFor (submit_assignment [] 1 3 5 100 "hi".data none
        (.oracle .badEnvelope)) 3 5 = [r] ∧
      r.content = "hi".data ∧ r.file_url = fileUrlOf none ∧
      r.ai_score = none ∧ ∃ msg, r.ai_feedback = some msg ∧ msg ≠ [] :=
  submission_survives_grading_failure [] 1 3 5 100 "hi".data none
    (.oracle .badEnvelope) (by decide) (by decide) trivial

/-- C5: submitting twice for the same `(assignment, student)` key (starting
from any store satisfying the key's uniqueness constraint) leaves exactly
one row for that key, and that row carries the second submission's content,
file reference, timestamp and AI fields — the first write is overwritten in
place and no history row is created. -/
theorem resubmission_overwrites_single_row (db : List SubmissionRow)
    (n1 n2 a s t1 t2 : Nat) (c1 c2 : List Char)
    (f1 f2 : Option (List Char × List Char)) (g1 g2 : GradingStep)
    (hlen : (rowsFor db a s).length ≤ 1) :
    ∃ r, rowsFor (submit_assignment (submit_assignment db n1 a s t1 c1 f1 g1)
        n2 a s t2 c2 f2 g2) a s = [r] ∧
      r.content = c2 ∧ r.file_url = fileUrlOf f2 ∧ r.submitted_at = t2 ∧
      r.ai_score = (aiFieldsFor (combineContent c2 (fileTextOf f2)) g2).1 ∧
      r.ai_feedback = (aiFieldsFor (combineContent c2 (fileTextOf f2)) g2).2 := by
  obtain ⟨r1, hr1, -⟩ := submit_assignment_rowsFor db n1 a s t1 c1 f1 g1 hlen
  exact submit_assignment_rowsFor _ n2 a s t2 c2 f2 g2 (by simp [hr1])

/-- Witness for C5: two submissions into an initially empty store; the
surviving row carries the second texts and timestamp. -/
theorem resubmission_overwrites_single_row_witness :
    ∃ r, rowsFor (submit_assignment (submit_assignment [] 1 3 5 100 "v1".data none
        (.oracle .badEnvelope)) 2 3 5 200 "v2".data none
        (.oracle (.text "1. 评分(0-100分): 87\n2. 评价: ok"))) 3 5 = [r] ∧
      r.content = "v2".data ∧ r.file_url = fileUrlOf none ∧ r.submitted_at = 200 ∧
      r.ai_score = (aiFieldsFor (combineContent "v2".data (fileTextOf none))
        (.oracle (.text "1. 评分(0-100分): 87\n2. 评价: ok"))).1 ∧
      r.ai_feedback = (aiFieldsFor (combineContent "v2".data (fileTextOf none))
        (.oracle (.text "1. 评分(0-100分): 87\n2. 评价: ok"))).2 :=
  resubmission_overwrites_single_row [] 1 2 3 5 100 200 "v1".data "v2".data none none
    (.oracle .badEnvelope) (.oracle (.text "1. 评分(0-100分): 87\n2. 评价: ok"))
    (by decide)

/-! ### Lemmas about the score-trend query -/

theorem scoredRows_grade_isSome (db : List SubmissionRow)
    (assignments : List Assignment) (sid cid : Nat) (p : TrendPoint)
    (hp : p ∈ scoredRows db assignments sid cid) : p.grade ≠ none := by
  unfold scoredRows at hp
  obtain ⟨pair, hpair, hmap⟩ := List.mem_map.mp hp
  have hfilter := (List.mem_filter.mp hpair).2
  simp only [Bool.and_eq_true, Bool.or_eq_true] at hfilter
  have hscored := hfilter.2
  rw [← hmap]
  show gradeOf pair.1 ≠ none
  unfold gradeOf
  cases hsc : pair.1.score with
  | some v => simp
  | none =>
    rcases hscored with hs | ha
    · rw [hsc] at hs
      simp at hs
    · cases hai : pair.1.ai_score
      · rw [hai] at ha
        simp at ha
      · simp

theorem mem_get_grade_trend (db : List SubmissionRow)
    (assignments : List Assignment) (classes : List ClassInfo) (sid : Nat)
    (e : TrendEntry) :
    e ∈ get_grade_trend db assignments classes sid ↔
      ∃ c ∈ classes,
        (List.insertionSort laterFirst (scoredRows db assignments sid c.id)).take 5 ≠ [] ∧
        e = { class_id := c.id, class_name := c.name, class_code := c.code,
              submissions := List.insertionSort earlierFirst
                ((List.insertionSort laterFirst
                  (scoredRows db assignments sid c.id)).take 5) } := by
  unfold get_grade_trend
  rw [List.mem_filterMap]
  constructor
  · rintro ⟨c, hc, hfc⟩
    dsimp only at hfc
    by_cases hnil :
        ((List.insertionSort laterFirst (scoredRows db assignments sid c.id)).take 5).isEmpty
    · rw [if_pos hnil] at hfc
      exact absurd hfc (by simp)
    · rw [if_neg hnil] at hfc
      exact ⟨c, hc, fun h => hnil (List.isEmpty_iff.mpr h),
        (Option.some_injective _ hfc).symm⟩
  · rintro ⟨c, hc, hne, he⟩
    refine ⟨c, hc, ?_⟩
    dsimp only
    rw [if_neg (fun h => hne (List.isEmpty_iff.mp h)), he]

/-- C10: per enrolled class, the grade-trend route returns at most the 5
most recent scored submissions of the student, re-sorted ascending by
submission time, and omits a class entirely exactly when the student has no
scored submission in it: every returned entry is nonempty with at most 5
points sorted ascending, each point stems from a scored row of that class
(so its grade is non-null), every scored row of the class either appears in
the entry or is no newer than everything that does, and a class yields an
entry iff its scored-row list is nonempty. -/
theorem get_grade_trend_recent_scored (db : List SubmissionRow)
    (assignments : List Assignment) (classes : List ClassInfo) (sid : Nat) :
    (∀ e ∈ get_grade_trend db assignments classes sid,
        e.submissions ≠ [] ∧ e.submissions.length ≤ 5 ∧
        List.Sorted earlierFirst e.submissions ∧
        (∀ p ∈ e.submissions,
          p ∈ scoredRows db assignments sid e.class_id ∧ p.grade ≠ none) ∧
        (∀ q ∈ scoredRows db assignments sid e.class_id,
          q ∈ e.submissions ∨
            ∀ p ∈ e.submissions, q.submitted_at ≤ p.submitted_at)) ∧
    (∀ c ∈ classes,
        (∃ e ∈ get_grade_trend db assignments classes sid, e.class_id = c.id) ↔
          scoredRows db assignments sid c.id ≠ []) := by
  constructor
  · intro e he
    obtain ⟨c, _, hne, hedef⟩ := (mem_get_grade_trend db assignments classes sid e).mp he
    subst hedef
    dsimp only
    set S := scoredRows db assignments sid c.id with hS
    set T := List.insertionSort laterFirst S with hT
    have hsplit : T.take 5 ++ T.drop 5 = T := List.take_append_drop 5 T
    have hsorted : List.Sorted laterFirst T := List.sorted_insertionSort laterFirst S
    refine ⟨?_, ?_, List.sorted_insertionSort earlierFirst _, ?_, ?_⟩
    · intro h
      have := List.length_insertionSort earlierFirst (T.take 5)
      rw [h] at this
      exact hne (List.eq_nil_of_length_eq_zero this.symm)
    · rw [List.length_insertionSort]
      exact List.length_take_le 5 T
    · intro p hp
      have hp5 : p ∈ T.take 5 := (List.mem_insertionSort earlierFirst).mp hp
      have hpT : p ∈ T := List.take_subset 5 T hp5
      have hpS : p ∈ S := (List.mem_insertionSort laterFirst).mp hpT
      exact ⟨hpS, scoredRows_grade_isSome db assignments sid c.id p hpS⟩
    · intro q hq
      have hqT : q ∈ T := (List.mem_insertionSort laterFirst).mpr hq
      rw [← hsplit] at hqT
      rcases List.mem_append.mp hqT with htake | hdrop
      · exact Or.inl ((List.mem_insertionSort earlierFirst).mpr htake)
      · refine Or.inr fun p hp => ?_
        have hp5 : p ∈ T.take 5 := (List.mem_insertionSort earlierFirst).mp hp
        have hpw : List.Pairwise laterFirst (T.take 5 ++ T.drop 5) := by
          rw [hsplit]
          exact hsorted
        exact (List.pairwise_append.mp hpw).2.2 p hp5 q hdrop
  · intro c hc
    constructor
    · rintro ⟨e, he, hcid⟩
      obtain ⟨c2, -, hne2, hedef⟩ :=
        (mem_get_grade_trend db assignments classes sid e).mp he
      have hTne :
          List.insertionSort laterFirst (scoredRows db assignments sid c2.id) ≠ [] := by
        intro h
        apply hne2
        rw [h]
        rfl
      have hSne : scoredRows db assignments sid c2.id ≠ [] := by
        intro h
        apply hTne
        rw [h]
        rfl
      have hid : c2.id = c.id := by
        rw [hedef] at hcid
        exact hcid
      rwa [hid] at hSne
    · intro hS
      have hTne : List.insertionSort laterFirst (scoredRows db assignments sid c.id) ≠ [] := by
        intro h
        have := List.length_insertionSort laterFirst (scoredRows db assignments sid c.id)
        rw [h] at this
        exact hS (List.eq_nil_of_length_eq_zero this.symm)
      have htake : (List.insertionSort laterFirst
          (scoredRows db assignments sid c.id)).take 5 ≠ [] := by
        rcases hl : List.insertionSort laterFirst (scoredRows db assignments sid c.id) with
          _ | ⟨a, t⟩
        · exact absurd hl hTne
        · simp
      exact ⟨_, (mem_get_grade_trend db assignments classes sid _).mpr
        ⟨c, hc, htake, rfl⟩, rfl⟩

/-- Witness for C10 at a concrete store: one student with two scored
submissions and one unscored submission in class 7, and an enrolled class 8
with no scored submissions, which is omitted. -/
theorem get_grade_trend_recent_scored_witness :
    (∀ e ∈ get_grade_trend
        [{ id := 1, assignment_id := 3, student_id := 5, content := "a".data,
           file_url := [], submitted_at := 100, ai_score := some 70,
           ai_feedback := none, score := some 90, feedback := none, graded_at := none },
         { id := 2, assignment_id := 4, student_id := 5, content := "b".data,
           file_url := [], submitted_at := 50, ai_score := some 60,
           ai_feedback := none, score := none, feedback := none, graded_at := none },
         { id := 3, assignment_id := 6, student_id := 5, content := "c".data,
           file_url := [], submitted_at := 70, ai_score := none,
           ai_feedback := none, score := none, feedback := none, graded_at := none }]
        [{ id := 3, title := "hw1".data, description := "d".data, teacher_id := 1,
           class_id := 7, deadline := 500 },
         { id := 4, title := "hw2".data, description := "d".data, teacher_id := 1,
           class_id := 7, deadline := 500 },
         { id := 6, title := "hw3".data, description := "d".data, teacher_id := 1,
           class_id := 8, deadline := 500 }]
        [{ id := 7, name := "一班".data, code := "ABC123".data },
         { id := 8, name := "二班".data, code := "XYZ789".data }] 5,
        e.submissions ≠ [] ∧ e.submissions.length ≤ 5 ∧
        List.Sorted earlierFirst e.submissions ∧
        (∀ p ∈ e.submissions,
          p ∈ scoredRows
            [{ id := 1, assignment_id := 3, student_id := 5, content := "a".data,
               file_url := [], submitted_at := 100, ai_score := some 70,
               ai_feedback := none, score := some 90, feedback := none, graded_at := none },
             { id := 2, assignment_id := 4, student_id := 5, content := "b".data,
               file_url := [], submitted_at := 50, ai_score := some 60,
               ai_feedback := none, score := none, feedback := none, graded_at := none },
             { id := 3, assignment_id := 6, student_id := 5, content := "c".data,
               file_url := [], submitted_at := 70, ai_score := none,
               ai_feedback := none, score := none, feedback := none, graded_at := none }]
            [{ id := 3, title := "hw1".data, description := "d".data, teacher_id := 1,
               class_id := 7, deadline := 500 },
             { id := 4, title := "hw2".data, description := "d".data, teacher_id := 1,
               class_id := 7, deadline := 500 },
             { id := 6, title := "hw3".data, description := "d".data, teacher_id := 1,
               class_id := 8, deadline := 500 }] 5 e.class_id ∧ p.grade ≠ none) ∧
        (∀ q ∈ scoredRows
            [{ id := 1, assignment_id := 3, student_id := 5, content := "a".data,
               file_url := [], submitted_at := 100, ai_score := some 70,
               ai_feedback := none, score := some 90, feedback := none, graded_at := none },
             { id := 2, assignment_id := 4, student_id := 5, content := "b".data,
               file_url := [], submitted_at := 50, ai_score := some 60,
               ai_feedback := none, score := none, feedback := none, graded_at := none },
             { id := 3, assignment_id := 6, student_id := 5, content := "c".data,
               file_url := [], submitted_at := 70, ai_score := none,
               ai_feedback := none, score := none, feedback := none, graded_at := none }]
            [{ id := 3, title := "hw1".data, description := "d".data, teacher_id := 1,
               class_id := 7, deadline := 500 },
             { id := 4, title := "hw2".data, description := "d".data, teacher_id := 1,
               class_id := 7, deadline := 500 },
             { id := 6, title := "hw3".data, description := "d".data, teacher_id := 1,
               class_id := 8, deadline := 500 }] 5 e.class_id,
          q ∈ e.submissions ∨
            ∀ p ∈ e.submissions, q.submitted_at ≤ p.submitted_at)) ∧
    (∀ c ∈ [({ id := 7, name := "一班".data, code := "ABC123".data } : ClassInfo),
            { id := 8, name := "二班".data, code := "XYZ789".data }],
        (∃ e ∈ get_grade_trend
            [{ id := 1, assignment_id := 3, student_id := 5, content := "a".data,
               file_url := [], submitted_at := 100, ai_score := some 70,
               ai_feedback := none, score := some 90, feedback := none, graded_at := none },
             { id := 2, assignment_id := 4, student_id := 5, content := "b".data,
               file_url := [], submitted_at := 50, ai_score := some 60,
               ai_feedback := none, score := none, feedback := none, graded_at := none },
             { id := 3, assignment_id := 6, student_id := 5, content := "c".data,
               file_url := [], submitted_at := 70, ai_score := none,
               ai_feedback := none, score := none, feedback := none, graded_at := none }]
            [{ id := 3, title := "hw1".data, description := "d".data, teacher_id := 1,
               class_id := 7, deadline := 500 },
             { id := 4, title := "hw2".data, description := "d".data, teacher_id := 1,
               class_id := 7, deadline := 500 },
             { id := 6, title := "hw3".data, description := "d".data, teacher_id := 1,
               class_id := 8, deadline := 500 }]
            [{ id := 7, name := "一班".data, code := "ABC123".data },
             { id := 8, name := "二班".data, code := "XYZ789".data }] 5,
          e.class_id = c.id) ↔
          scoredRows
            [{ id := 1, assignment_id := 3, student_id := 5, content := "a".data,
               file_url := [], submitted_at := 100, ai_score := some 70,
               ai_feedback := none, score := some 90, feedback := none, graded_at := none },
             { id := 2, assignment_id := 4, student_id := 5, content := "b".data,
               file_url := [], submitted_at := 50, ai_score := some 60,
               ai_feedback := none, score := none, feedback := none, graded_at := none },
             { id := 3, assignment_id := 6, student_id := 5, content := "c".data,
               file_url := [], submitted_at := 70, ai_score := none,
               ai_feedback := none, score := none, feedback := none, graded_at := none }]
            [{ id := 3, title := "hw1".data, description := "d".data, teacher_id := 1,
               class_id := 7, deadline := 500 },
             { id := 4, title := "hw2".data, description := "d".data, teacher_id := 1,
               class_id := 7, deadline := 500 },
             { id := 6, title := "hw3".data, description := "d".data, teacher_id := 1,
               class_id := 8, deadline := 500 }] 5 c.id ≠ []) :=
  get_grade_trend_recent_scored _ _ _ 5

end EduPlatform
